import Mathlib

/-!
Verification development for the SDL_mixer timidity music backend
(`src/codecs/music_timidity.c`).

The C file is shallowly embedded: the `TIMIDITY_Music` struct becomes a Lean
structure, and each backend operation becomes a pure function.  Calls into the
external timidity synthesis library and into the SDL audio-stream API are
modelled by (a) an explicit event trace recording each external call, and
(b) oracle inputs (`GetSomeEnv`, `CreateEnv`, `OpenEnv`) supplying their return
values.  The SDL audio stream itself is modelled as a byte-count buffer: a
drain returns `min buffered requested` bytes and removes them, a put adds the
converted byte count supplied by the oracle.
-/

set_option maxHeartbeats 1000000

/-- `MIX_MAX_VOLUME` from the public SDL_mixer header (value 128). -/
def MIX_MAX_VOLUME : Int := 128

/-- Model of an `SDL_AudioStream`: only the number of buffered output bytes is
tracked. -/
structure AudioStream where
  buffered : Nat
deriving DecidableEq, Repr

/-- Model of the `TIMIDITY_Music` struct.  The opaque `MidiSong *song` pointer
is reduced to a presence flag, and `void *buffer` likewise (its contents are
scratch data passed straight to the stream). -/
structure TIMIDITY_Music where
  play_count : Int
  song : Bool
  stream : Option AudioStream
  buffer : Bool
  buffer_size : Nat
  volume : Int
deriving DecidableEq, Repr

/-- External calls made by the session operations, in call order. -/
inductive Event
  | getStreamData (requested got : Nat)
  | putStreamData (len : Nat)
  | playSome (maxlen got : Nat)
  | timidityStart
  | timiditySeek (ms : Nat)
  | timidityStop
  | timiditySetVolume (v : Int)
deriving DecidableEq, Repr

/-- `TIMIDITY_Seek`: forwards to `Timidity_Seek(song, (Uint32)(position*1000))`
and returns 0.  The session struct itself is not modified. -/
def TIMIDITY_Seek (m : TIMIDITY_Music) (position : ℚ) :
    Int × TIMIDITY_Music × List Event :=
  (0, m, [Event.timiditySeek (Int.toNat (Int.floor (position * 1000)))])

/-- `TIMIDITY_Play`: stores the repeat count, calls `Timidity_Start`, then
returns `TIMIDITY_Seek(music, 0.0)`. -/
def TIMIDITY_Play (m : TIMIDITY_Music) (play_count : Int) :
    Int × TIMIDITY_Music × List Event :=
  let m1 : TIMIDITY_Music := { m with play_count := play_count }
  let s := TIMIDITY_Seek m1 0
  (s.1, s.2.1, Event.timidityStart :: s.2.2)

/-- Oracle for the external calls performed during one `TIMIDITY_GetSome`:
the byte count produced by `Timidity_PlaySome`, the success of
`SDL_PutAudioStreamData`, and the byte-count conversion the stream applies to
pushed data. -/
structure GetSomeEnv where
  playAmount : Nat
  putOk : Bool
  convert : Nat → Nat

/-- Result of one `TIMIDITY_GetSome` call: return value, whether `*done` was
set to true, the session state afterwards, and the external calls made. -/
structure GetSomeOut where
  ret : Int
  done : Bool
  music : TIMIDITY_Music
  events : List Event
deriving Repr

/-- The short-production block of `TIMIDITY_GetSome` (lines 187-200): when the
decoder produced fewer bytes than expected, either force `play_count` to 0
(final play) or re-invoke `TIMIDITY_Play` with the decremented count (or the
unchanged -1 sentinel).  Returns the status of the inner `TIMIDITY_Play`
(0 when no restart happened). -/
def loopCheck (m : TIMIDITY_Music) (amount expected : Nat) :
    Int × TIMIDITY_Music × List Event :=
  if amount < expected then
    if m.play_count = 1 then
      (0, { m with play_count := 0 }, [])
    else
      let pc : Int := if 0 < m.play_count then m.play_count - 1 else -1
      TIMIDITY_Play m pc
  else
    (0, m, [])

/-- Lines 170-207 of `TIMIDITY_GetSome`: everything after the initial stream
drain.  `ev` is the trace accumulated by the drain step. -/
def getSomeDecode (env : GetSomeEnv) (m : TIMIDITY_Music) (bytes : Nat)
    (ev : List Event) : GetSomeOut :=
  if m.play_count = 0 then
    ⟨0, true, m, ev⟩
  else
    match m.stream with
    | some st =>
        let amount := env.playAmount
        let ev2 := ev ++ [Event.playSome m.buffer_size amount,
                          Event.putStreamData amount]
        if env.putOk = true then
          let m2 : TIMIDITY_Music :=
            { m with stream := some ⟨st.buffered + env.convert amount⟩ }
          let r := loopCheck m2 amount m.buffer_size
          if r.1 < 0 then ⟨-1, false, r.2.1, ev2 ++ r.2.2⟩
          else ⟨0, false, r.2.1, ev2 ++ r.2.2⟩
        else
          ⟨-1, false, m, ev2⟩
    | none =>
        let amount := env.playAmount
        let ev2 := ev ++ [Event.playSome bytes amount]
        let r := loopCheck m amount bytes
        if r.1 < 0 then ⟨-1, false, r.2.1, ev2 ++ r.2.2⟩
        else ⟨(amount : Int), false, r.2.1, ev2 ++ r.2.2⟩

/-- `TIMIDITY_GetSome`: drain the audio stream first (fast path, returning
immediately on a non-zero drain), otherwise fall through to the decode path. -/
def TIMIDITY_GetSome (env : GetSomeEnv) (m : TIMIDITY_Music) (bytes : Nat) :
    GetSomeOut :=
  match m.stream with
  | some st =>
      let filled := min st.buffered bytes
      let m1 : TIMIDITY_Music := { m with stream := some ⟨st.buffered - filled⟩ }
      if filled = 0 then
        getSomeDecode env m1 bytes [Event.getStreamData bytes filled]
      else
        ⟨(filled : Int), false, m1, [Event.getStreamData bytes filled]⟩
  | none => getSomeDecode env m bytes []

/-- Bytes the drain step of `TIMIDITY_GetSome` would yield. -/
def drainAmount (m : TIMIDITY_Music) (bytes : Nat) : Nat :=
  match m.stream with
  | some st => min st.buffered bytes
  | none => 0

/-- Expected unit size used by the short-production test: the scratch-buffer
size when a stream exists, otherwise the caller's byte count. -/
def expectedBytes (m : TIMIDITY_Music) (bytes : Nat) : Nat :=
  match m.stream with
  | some _ => m.buffer_size
  | none => bytes

/-- C1: when the format adapter (SDL audio stream) holds buffered bytes and a
positive byte count is requested, `TIMIDITY_GetSome` returns exactly the bytes
drained from the adapter, leaves the adapter with the remainder, does not set
`*done`, and performs no `Timidity_PlaySome` decode call in that invocation. -/
theorem timidity_getSome_drain_fast_path
    (env : GetSomeEnv) (m : TIMIDITY_Music) (bytes : Nat) (st : AudioStream)
    (hst : m.stream = some st) (hbuf : 0 < st.buffered) (hbytes : 0 < bytes) :
    (TIMIDITY_GetSome env m bytes).ret = (min st.buffered bytes : Int) ∧
    (TIMIDITY_GetSome env m bytes).done = false ∧
    (TIMIDITY_GetSome env m bytes).music =
      { m with stream := some ⟨st.buffered - min st.buffered bytes⟩ } ∧
    ∀ len got, Event.playSome len got ∉ (TIMIDITY_GetSome env m bytes).events := by
  have hmin : 0 < min st.buffered bytes := lt_min_iff.mpr ⟨hbuf, hbytes⟩
  have hne : ¬ (min st.buffered bytes = 0) := Nat.pos_iff_ne_zero.mp hmin
  unfold TIMIDITY_GetSome
  rw [hst]
  simp [hne]

/-- Closed witness for C1: a session whose adapter buffers 10 bytes, asked for
4 bytes, returns 4 bytes and makes no decode call. -/
theorem timidity_getSome_drain_fast_path_witness :
    (TIMIDITY_GetSome ⟨0, true, fun n => n⟩
        ⟨3, true, some ⟨10⟩, true, 4096, 128⟩ 4).ret = ((min 10 4 : Nat) : Int) ∧
    (TIMIDITY_GetSome ⟨0, true, fun n => n⟩
        ⟨3, true, some ⟨10⟩, true, 4096, 128⟩ 4).done = false ∧
    (TIMIDITY_GetSome ⟨0, true, fun n => n⟩
        ⟨3, true, some ⟨10⟩, true, 4096, 128⟩ 4).music =
      { (⟨3, true, some ⟨10⟩, true, 4096, 128⟩ : TIMIDITY_Music) with
          stream := some ⟨10 - min 10 4⟩ } ∧
    ∀ len got, Event.playSome len got ∉
      (TIMIDITY_GetSome ⟨0, true, fun n => n⟩
        ⟨3, true, some ⟨10⟩, true, 4096, 128⟩ 4).events :=
  timidity_getSome_drain_fast_path ⟨0, true, fun n => n⟩
    ⟨3, true, some ⟨10⟩, true, 4096, 128⟩ 4 ⟨10⟩ rfl (by decide) (by decide)

lemma seek_zero_ms : Int.toNat (Int.floor ((0 : ℚ) * 1000)) = 0 := by norm_num

/-- Under short production, `loopCheck` either zeroes the repeat count (final
play) or re-invokes `TIMIDITY_Play` with the decremented count / -1 sentinel. -/
lemma loopCheck_short (m : TIMIDITY_Music) (amount expected : Nat)
    (h : amount < expected) :
    loopCheck m amount expected =
      if m.play_count = 1 then (0, { m with play_count := 0 }, [])
      else (0, { m with play_count :=
                   if 0 < m.play_count then m.play_count - 1 else -1 },
            [Event.timidityStart, Event.timiditySeek 0]) := by
  unfold loopCheck TIMIDITY_Play TIMIDITY_Seek
  simp [h, seek_zero_ms]

/-- In the post-drain path, `*done` is set only together with a zero return. -/
lemma getSomeDecode_done_imp (env : GetSomeEnv) (m : TIMIDITY_Music)
    (bytes : Nat) (ev : List Event) :
    (getSomeDecode env m bytes ev).done = true →
    (getSomeDecode env m bytes ev).ret = 0 := by
  unfold getSomeDecode
  split
  · intro _; rfl
  · split <;> simp [apply_ite GetSomeOut.done]

/-- C2: when the repeat count is 0 and the adapter yields nothing (or is
absent), `TIMIDITY_GetSome` sets `*done`, returns 0 bytes and makes no decode
call; and in every call, setting `*done` forces a zero return (the done signal
and a non-zero byte count are mutually exclusive). -/
theorem timidity_getSome_done_exclusive
    (env : GetSomeEnv) (m : TIMIDITY_Music) (bytes : Nat) :
    (m.play_count = 0 → drainAmount m bytes = 0 →
      (TIMIDITY_GetSome env m bytes).done = true ∧
      (TIMIDITY_GetSome env m bytes).ret = 0 ∧
      ∀ len got, Event.playSome len got ∉ (TIMIDITY_GetSome env m bytes).events) ∧
    ((TIMIDITY_GetSome env m bytes).done = true →
      (TIMIDITY_GetSome env m bytes).ret = 0) := by
  obtain ⟨pc, song, stream, buf, bsize, vol⟩ := m
  constructor
  · intro h0 hd
    have h0' : pc = 0 := h0
    cases stream with
    | none =>
        simp only [TIMIDITY_GetSome]
        simp [getSomeDecode, h0']
    | some st =>
        obtain ⟨b⟩ := st
        have hd' : min b bytes = 0 := hd
        simp only [TIMIDITY_GetSome]
        simp [hd', getSomeDecode, h0']
  · intro hdone
    cases stream with
    | none =>
        simp only [TIMIDITY_GetSome] at hdone ⊢
        exact getSomeDecode_done_imp _ _ _ _ hdone
    | some st =>
        obtain ⟨b⟩ := st
        simp only [TIMIDITY_GetSome] at hdone ⊢
        by_cases hf : min b bytes = 0
        · simp [hf] at hdone ⊢
          exact getSomeDecode_done_imp _ _ _ _ hdone
        · simp [hf] at hdone

/-- Closed witness for C2: an exhausted session (repeat count 0, no adapter)
signals done, returns 0 bytes and performs no decode call. -/
theorem timidity_getSome_done_exclusive_witness :
    (TIMIDITY_GetSome ⟨7, true, fun n => n⟩
        ⟨0, true, none, false, 0, 128⟩ 16).done = true ∧
    (TIMIDITY_GetSome ⟨7, true, fun n => n⟩
        ⟨0, true, none, false, 0, 128⟩ 16).ret = 0 ∧
    ∀ len got, Event.playSome len got ∉
      (TIMIDITY_GetSome ⟨7, true, fun n => n⟩
        ⟨0, true, none, false, 0, 128⟩ 16).events :=
  (timidity_getSome_done_exclusive ⟨7, true, fun n => n⟩
    ⟨0, true, none, false, 0, 128⟩ 16).1 rfl rfl

/-- C3: on short production (decoder produced fewer bytes than the expected
unit size, with the decode path reached and the stream put succeeding):
repeat count 1 is forced to 0 with no Play re-invocation; repeat count above 1
triggers a Play re-invocation (Timidity_Start plus seek to 0) with the count
decremented; a negative repeat count triggers the re-invocation with the -1
sentinel; and the session's non-playback fields are preserved (no new session
is allocated). -/
theorem timidity_getSome_loop_restart
    (env : GetSomeEnv) (m : TIMIDITY_Music) (bytes : Nat)
    (hd : drainAmount m bytes = 0) (hpc : m.play_count ≠ 0)
    (hput : m.stream.isSome = true → env.putOk = true)
    (hshort : env.playAmount < expectedBytes m bytes) :
    (m.play_count = 1 →
      (TIMIDITY_GetSome env m bytes).music.play_count = 0 ∧
      Event.timidityStart ∉ (TIMIDITY_GetSome env m bytes).events) ∧
    (1 < m.play_count →
      (TIMIDITY_GetSome env m bytes).music.play_count = m.play_count - 1 ∧
      Event.timidityStart ∈ (TIMIDITY_GetSome env m bytes).events ∧
      Event.timiditySeek 0 ∈ (TIMIDITY_GetSome env m bytes).events) ∧
    (m.play_count < 0 →
      (TIMIDITY_GetSome env m bytes).music.play_count = -1 ∧
      Event.timidityStart ∈ (TIMIDITY_GetSome env m bytes).events ∧
      Event.timiditySeek 0 ∈ (TIMIDITY_GetSome env m bytes).events) ∧
    ((TIMIDITY_GetSome env m bytes).music.song = m.song ∧
     (TIMIDITY_GetSome env m bytes).music.volume = m.volume ∧
     (TIMIDITY_GetSome env m bytes).music.buffer = m.buffer ∧
     (TIMIDITY_GetSome env m bytes).music.buffer_size = m.buffer_size ∧
     (TIMIDITY_GetSome env m bytes).music.stream.isSome = m.stream.isSome) := by
  obtain ⟨pc, song, stream, buf, bsize, vol⟩ := m
  have hpc' : pc ≠ 0 := hpc
  cases stream with
  | none =>
      have hshort' : env.playAmount < bytes := hshort
      simp only [TIMIDITY_GetSome]
      rw [getSomeDecode, if_neg hpc']
      simp only [loopCheck_short _ _ _ hshort']
      by_cases h1 : pc = 1
      · simp [h1]
      · have hpc1 : ¬ ((⟨pc, song, none, buf, bsize, vol⟩ :
            TIMIDITY_Music).play_count = 1) := h1
        rw [if_neg hpc1]
        constructor
        · intro h; exact absurd h h1
        · by_cases hpos : 0 < pc
          · simp [hpos]
            omega
          · simp [hpos]
            omega
  | some st =>
      obtain ⟨b⟩ := st
      have hd' : min b bytes = 0 := hd
      have hshort' : env.playAmount < bsize := hshort
      have hput' : env.putOk = true := hput rfl
      simp only [TIMIDITY_GetSome]
      rw [if_pos hd']
      rw [getSomeDecode, if_neg hpc']
      simp only [hput', if_true]
      simp only [loopCheck_short _ _ _ hshort']
      by_cases h1 : pc = 1
      · simp [h1]
      · have hpc1 : ¬ ((⟨pc, song, some ⟨b - min b bytes + env.convert
            env.playAmount⟩, buf, bsize, vol⟩ :
            TIMIDITY_Music).play_count = 1) := h1
        rw [if_neg hpc1]
        constructor
        · intro h; exact absurd h h1
        · by_cases hpos : 0 < pc
          · simp [hpos]
            omega
          · simp [hpos]
            omega

/-- Closed witness for C3: a no-adapter session with repeat count 3 asked for
8 bytes while the decoder produces only 4 bytes re-invokes Play with count 2. -/
theorem timidity_getSome_loop_restart_witness :
    ((3 : Int) = 1 →
      (TIMIDITY_GetSome ⟨4, true, fun n => n⟩
        ⟨3, true, none, false, 0, 128⟩ 8).music.play_count = 0 ∧
      Event.timidityStart ∉ (TIMIDITY_GetSome ⟨4, true, fun n => n⟩
        ⟨3, true, none, false, 0, 128⟩ 8).events) ∧
    ((1 : Int) < 3 →
      (TIMIDITY_GetSome ⟨4, true, fun n => n⟩
        ⟨3, true, none, false, 0, 128⟩ 8).music.play_count = 3 - 1 ∧
      Event.timidityStart ∈ (TIMIDITY_GetSome ⟨4, true, fun n => n⟩
        ⟨3, true, none, false, 0, 128⟩ 8).events ∧
      Event.timiditySeek 0 ∈ (TIMIDITY_GetSome ⟨4, true, fun n => n⟩
        ⟨3, true, none, false, 0, 128⟩ 8).events) ∧
    ((3 : Int) < 0 →
      (TIMIDITY_GetSome ⟨4, true, fun n => n⟩
        ⟨3, true, none, false, 0, 128⟩ 8).music.play_count = -1 ∧
      Event.timidityStart ∈ (TIMIDITY_GetSome ⟨4, true, fun n => n⟩
        ⟨3, true, none, false, 0, 128⟩ 8).events ∧
      Event.timiditySeek 0 ∈ (TIMIDITY_GetSome ⟨4, true, fun n => n⟩
        ⟨3, true, none, false, 0, 128⟩ 8).events) ∧
    ((TIMIDITY_GetSome ⟨4, true, fun n => n⟩
        ⟨3, true, none, false, 0, 128⟩ 8).music.song = true ∧
     (TIMIDITY_GetSome ⟨4, true, fun n => n⟩
        ⟨3, true, none, false, 0, 128⟩ 8).music.volume = 128 ∧
     (TIMIDITY_GetSome ⟨4, true, fun n => n⟩
        ⟨3, true, none, false, 0, 128⟩ 8).music.buffer = false ∧
     (TIMIDITY_GetSome ⟨4, true, fun n => n⟩
        ⟨3, true, none, false, 0, 128⟩ 8).music.buffer_size = 0 ∧
     (TIMIDITY_GetSome ⟨4, true, fun n => n⟩
        ⟨3, true, none, false, 0, 128⟩ 8).music.stream.isSome =
       (none : Option AudioStream).isSome) :=
  timidity_getSome_loop_restart ⟨4, true, fun n => n⟩
    ⟨3, true, none, false, 0, 128⟩ 8 rfl (by decide) (by decide) (by decide)

/-- C4: `TIMIDITY_Play` stores the given repeat count in the session and
unconditionally restarts the decoder and seeks it to position zero
(`Timidity_Start` followed by a seek to 0 milliseconds), returning 0. -/
theorem timidity_play_sets_count_and_seeks_zero
    (m : TIMIDITY_Music) (n : Int) :
    (TIMIDITY_Play m n).2.1.play_count = n ∧
    (TIMIDITY_Play m n).2.2 = [Event.timidityStart, Event.timiditySeek 0] ∧
    (TIMIDITY_Play m n).1 = 0 ∧
    (TIMIDITY_Play m n).2.1.song = m.song ∧
    (TIMIDITY_Play m n).2.1.stream = m.stream ∧
    (TIMIDITY_Play m n).2.1.volume = m.volume := by
  unfold TIMIDITY_Play TIMIDITY_Seek
  simp [seek_zero_ms]

/-- `TIMIDITY_Stop`: the C function only forwards to `Timidity_Stop(song)`;
the session struct — in particular `play_count` — is left untouched. -/
def TIMIDITY_Stop (m : TIMIDITY_Music) : TIMIDITY_Music × List Event :=
  (m, [Event.timidityStop])

/-- C8 counterexample: a playing session with repeat count 5 still has repeat
count 5 after `TIMIDITY_Stop`, so Stop does not transition the session to the
Stopped state defined as repeat count 0. -/
theorem timidity_stop_keeps_play_count_counterexample :
    (TIMIDITY_Stop ⟨5, true, none, false, 0, 128⟩).1.play_count = 5 ∧
    ¬ ((TIMIDITY_Stop ⟨5, true, none, false, 0, 128⟩).1.play_count = 0) := by
  decide

/-- C8 amended: `TIMIDITY_Stop` issues only the decoder-level stop call; the
session state, including the repeat count, is unchanged, and no done /
exhaustion signal is produced (Stop has no done output at all). -/
theorem timidity_stop_leaves_state (m : TIMIDITY_Music) :
    (TIMIDITY_Stop m).1 = m ∧
    (TIMIDITY_Stop m).1.play_count = m.play_count ∧
    (TIMIDITY_Stop m).2 = [Event.timidityStop] := by
  unfold TIMIDITY_Stop
  simp

/-- Model of an `SDL_AudioSpec`: format code, channel count, frequency. -/
structure SDL_AudioSpec where
  format : Nat
  channels : Nat
  freq : Nat
deriving DecidableEq, Repr

/-- `SDL_AUDIO_BITSIZE`: the low byte of the format code is the sample bit
size. -/
def SDL_AUDIO_BITSIZE (format : Nat) : Nat := format % 256

/-- Oracle for the allocations performed by `TIMIDITY_CreateFromIO`: success
of `SDL_calloc`, `Timidity_LoadSong`, `SDL_CreateAudioStream`, `SDL_malloc`. -/
structure CreateEnv where
  callocOk : Bool
  loadSongOk : Bool
  createStreamOk : Bool
  mallocOk : Bool
deriving DecidableEq, Repr

/-- External release / close calls made during construction and teardown. -/
inductive CEvent
  | freeSong
  | destroyStream
  | freeBuffer
  | freeMusic
  | closedSrc
deriving DecidableEq, Repr

/-- Result of a `TIMIDITY_CreateFromIO` call: the constructed session (or
none) and the trace of release/close calls. -/
structure CreateOut where
  result : Option TIMIDITY_Music
  events : List CEvent
deriving Repr

/-- `TIMIDITY_Delete`: frees the song, the stream and the scratch buffer when
present, then frees the struct itself; tolerates any subset being absent. -/
def TIMIDITY_Delete (m : TIMIDITY_Music) : List CEvent :=
  (if m.song then [CEvent.freeSong] else []) ++
  (if m.stream.isSome then [CEvent.destroyStream] else []) ++
  (if m.buffer then [CEvent.freeBuffer] else []) ++
  [CEvent.freeMusic]

/-- The local `spec` of `TIMIDITY_CreateFromIO` after the channel clamp:
a copy of the target spec, with the channel count forced to 2 when the target
has more than 2 channels. -/
def clampedSpec (music_spec : SDL_AudioSpec) : SDL_AudioSpec :=
  if 2 < music_spec.channels then { music_spec with channels := 2 }
  else music_spec

/-- Scratch-buffer size computed at line 117:
`4096 * (SDL_AUDIO_BITSIZE(spec.format) / 8) * spec.channels` with the
clamped `spec`. -/
def timidityBufferSize (music_spec : SDL_AudioSpec) : Nat :=
  4096 * (SDL_AUDIO_BITSIZE (clampedSpec music_spec).format / 8) *
    (clampedSpec music_spec).channels

/-- `TIMIDITY_CreateFromIO`: allocate the zeroed struct, set the volume, clamp
the spec to stereo when the target has more than 2 channels, load the song,
and when a clamp happened create the audio stream and the scratch buffer.
On any sub-allocation failure, `TIMIDITY_Delete` the partial session and
return null.  `src` is closed only on the success path, when `closeio` was
requested. -/
def TIMIDITY_CreateFromIO (env : CreateEnv) (music_spec : SDL_AudioSpec)
    (closeio : Bool) : CreateOut :=
  if env.callocOk = false then
    ⟨none, []⟩
  else if env.loadSongOk = false then
    ⟨none, TIMIDITY_Delete
      { play_count := 0, song := false, stream := none, buffer := false,
        buffer_size := 0, volume := MIX_MAX_VOLUME }⟩
  else if 2 < music_spec.channels then
    if env.createStreamOk = false then
      ⟨none, TIMIDITY_Delete
        { play_count := 0, song := true, stream := none, buffer := false,
          buffer_size := 0, volume := MIX_MAX_VOLUME }⟩
    else if env.mallocOk = false then
      ⟨none, TIMIDITY_Delete
        { play_count := 0, song := true, stream := some ⟨0⟩, buffer := false,
          buffer_size := timidityBufferSize music_spec,
          volume := MIX_MAX_VOLUME }⟩
    else
      ⟨some { play_count := 0, song := true, stream := some ⟨0⟩,
              buffer := true, buffer_size := timidityBufferSize music_spec,
              volume := MIX_MAX_VOLUME },
       if closeio then [CEvent.closedSrc] else []⟩
  else
    ⟨some { play_count := 0, song := true, stream := none, buffer := false,
            buffer_size := 0, volume := MIX_MAX_VOLUME },
     if closeio then [CEvent.closedSrc] else []⟩

/-- C5: in every successfully constructed session the audio stream exists iff
the target spec has more than 2 channels (downmix to stereo), the scratch
buffer exists iff the stream exists, and when they exist the scratch buffer is
sized to 4096 frames times the sample byte size times the (clamped, stereo)
channel count. -/
theorem timidity_create_stream_buffer_iff
    (env : CreateEnv) (music_spec : SDL_AudioSpec) (closeio : Bool)
    (m : TIMIDITY_Music)
    (h : ( TIMIDITY_CreateFromIO env music_spec closeio).result = some m) :
    (m.stream.isSome = true ↔ 2 < music_spec.channels) ∧
    (m.buffer = true ↔ m.stream.isSome = true) ∧
    (m.stream.isSome = true →
      m.buffer_size =
        4096 * (SDL_AUDIO_BITSIZE music_spec.format / 8) * 2) := by
  unfold TIMIDITY_CreateFromIO at h
  split at h
  · simp at h
  · split at h
    · simp at h
    · split at h
      · split at h
        · simp at h
        · split at h
          · simp at h
          · rename_i hn _ _
            simp only [Option.some.injEq] at h
            subst h
            simp [hn, timidityBufferSize, clampedSpec]
      · rename_i hn
        simp only [Option.some.injEq] at h
        subst h
        simp [hn]

/-- Closed witness for C5: with every allocation succeeding and a 6-channel
16-bit target spec, the session has a stream and a 16384-byte scratch
buffer. -/
theorem timidity_create_stream_buffer_iff_witness :
    (((TIMIDITY_Music.mk 0 true (some ⟨0⟩) true 16384 128).stream.isSome = true
        ↔ 2 < (6 : Nat)) ∧
     ((TIMIDITY_Music.mk 0 true (some ⟨0⟩) true 16384 128).buffer = true ↔
        (TIMIDITY_Music.mk 0 true (some ⟨0⟩) true 16384 128).stream.isSome = true) ∧
     ((TIMIDITY_Music.mk 0 true (some ⟨0⟩) true 16384 128).stream.isSome = true →
        (TIMIDITY_Music.mk 0 true (some ⟨0⟩) true 16384 128).buffer_size =
          4096 * (SDL_AUDIO_BITSIZE 32784 / 8) * 2)) :=
  timidity_create_stream_buffer_iff ⟨true, true, true, true⟩
    ⟨32784, 6, 44100⟩ true (TIMIDITY_Music.mk 0 true (some ⟨0⟩) true 16384 128)
    rfl

/-- C6: whenever any sub-allocation fails (struct calloc, song load, stream
creation, or scratch-buffer malloc with more than 2 target channels), the
construction returns null and tears down exactly what was already allocated;
and `TIMIDITY_Delete` on any session frees precisely the present subset of
{song, stream, buffer} plus the struct itself, tolerating any subset being
absent. -/
theorem timidity_create_failure_teardown
    (env : CreateEnv) (music_spec : SDL_AudioSpec) (closeio : Bool) :
    ((env.callocOk = false ∨ env.loadSongOk = false ∨
        (2 < music_spec.channels ∧
          (env.createStreamOk = false ∨ env.mallocOk = false))) →
      ( TIMIDITY_CreateFromIO env music_spec closeio).result = none ∧
      (env.callocOk = true → env.loadSongOk = true →
        CEvent.freeSong ∈ ( TIMIDITY_CreateFromIO env music_spec closeio).events) ∧
      (env.callocOk = true → env.loadSongOk = true → 2 < music_spec.channels →
        env.createStreamOk = true →
        CEvent.destroyStream ∈
          ( TIMIDITY_CreateFromIO env music_spec closeio).events) ∧
      (env.callocOk = true →
        CEvent.freeMusic ∈
          ( TIMIDITY_CreateFromIO env music_spec closeio).events)) ∧
    (∀ m : TIMIDITY_Music,
      (CEvent.freeSong ∈ TIMIDITY_Delete m ↔ m.song = true) ∧
      (CEvent.destroyStream ∈ TIMIDITY_Delete m ↔ m.stream.isSome = true) ∧
      (CEvent.freeBuffer ∈ TIMIDITY_Delete m ↔ m.buffer = true) ∧
      CEvent.freeMusic ∈ TIMIDITY_Delete m) := by
  constructor
  · intro hfail
    cases hc : env.callocOk with
    | false =>
        refine ⟨?_, ?_, ?_, ?_⟩ <;>
          simp [ TIMIDITY_CreateFromIO, hc, TIMIDITY_Delete]
    | true =>
        cases hl : env.loadSongOk with
        | false =>
            refine ⟨?_, ?_, ?_, ?_⟩ <;>
              simp [ TIMIDITY_CreateFromIO, hc, hl, TIMIDITY_Delete]
        | true =>
            have hn : 2 < music_spec.channels := by
              rcases hfail with h | h | ⟨h, _⟩
              · rw [hc] at h; cases h
              · rw [hl] at h; cases h
              · exact h
            cases hs : env.createStreamOk with
            | false =>
                refine ⟨?_, ?_, ?_, ?_⟩ <;>
                  simp [ TIMIDITY_CreateFromIO, hc, hl, hn, hs, TIMIDITY_Delete]
            | true =>
                have hm : env.mallocOk = false := by
                  rcases hfail with h | h | ⟨_, h | h⟩
                  · rw [hc] at h; cases h
                  · rw [hl] at h; cases h
                  · rw [hs] at h; cases h
                  · exact h
                refine ⟨?_, ?_, ?_, ?_⟩ <;>
                  simp [ TIMIDITY_CreateFromIO, hc, hl, hn, hs, hm,
                        TIMIDITY_Delete]
  · intro m
    obtain ⟨pc, song, stream, buf, bsize, vol⟩ := m
    cases song <;> cases buf <;> cases stream <;>
      simp [TIMIDITY_Delete]

/-- Closed witness for C6: with the scratch-buffer malloc failing on a
6-channel target, construction returns null after freeing the song, the
stream and the struct; and `TIMIDITY_Delete` of a partial session (song only)
frees the song and the struct but neither stream nor buffer. -/
theorem timidity_create_failure_teardown_witness :
    ( TIMIDITY_CreateFromIO ⟨true, true, true, false⟩
        ⟨32784, 6, 44100⟩ true).result = none ∧
    CEvent.freeSong ∈
      ( TIMIDITY_CreateFromIO ⟨true, true, true, false⟩
        ⟨32784, 6, 44100⟩ true).events ∧
    CEvent.destroyStream ∈
      ( TIMIDITY_CreateFromIO ⟨true, true, true, false⟩
        ⟨32784, 6, 44100⟩ true).events ∧
    CEvent.freeMusic ∈
      ( TIMIDITY_CreateFromIO ⟨true, true, true, false⟩
        ⟨32784, 6, 44100⟩ true).events ∧
    (CEvent.freeSong ∈ TIMIDITY_Delete ⟨0, true, none, false, 0, 128⟩ ↔
      True) ∧
    (CEvent.destroyStream ∈ TIMIDITY_Delete ⟨0, true, none, false, 0, 128⟩ ↔
      False) := by
  have h := timidity_create_failure_teardown ⟨true, true, true, false⟩
    ⟨32784, 6, 44100⟩ true
  have h1 := h.1 (Or.inr (Or.inr ⟨by decide, Or.inr rfl⟩))
  have h2 := h.2 ⟨0, true, none, false, 0, 128⟩
  refine ⟨h1.1, h1.2.1 rfl rfl, h1.2.2.1 rfl rfl (by decide) rfl,
    h1.2.2.2 rfl, ?_, ?_⟩
  · simpa using h2.1
  · simpa using h2.2.1

/-- C10: with ownership transfer requested (`closeio = true`), the input byte
stream is closed if and only if construction succeeds; every failure path
leaves the stream open. -/
theorem timidity_create_closes_src_iff_success
    (env : CreateEnv) (music_spec : SDL_AudioSpec) :
    (( TIMIDITY_CreateFromIO env music_spec true).result.isSome = true ↔
      CEvent.closedSrc ∈ ( TIMIDITY_CreateFromIO env music_spec true).events) := by
  unfold TIMIDITY_CreateFromIO
  split
  · simp
  · split
    · simp [TIMIDITY_Delete]
    · split
      · split
        · simp [TIMIDITY_Delete]
        · split
          · simp [TIMIDITY_Delete]
          · simp
      · simp

/-- `TIMIDITY_SetVolume`: stores the level unclamped in the session and
forwards it to `Timidity_SetVolume`. -/
def TIMIDITY_SetVolume (m : TIMIDITY_Music) (volume : Int) :
    TIMIDITY_Music × List Event :=
  ({ m with volume := volume }, [Event.timiditySetVolume volume])

/-- `TIMIDITY_GetVolume`: reads the stored session volume; no state change. -/
def TIMIDITY_GetVolume (m : TIMIDITY_Music) : Int := m.volume

/-- Applying a sequence of `TIMIDITY_SetVolume` calls to a session. -/
def setVolumeFold (m : TIMIDITY_Music) (ops : List Int) : TIMIDITY_Music :=
  ops.foldl (fun acc v => (TIMIDITY_SetVolume acc v).1) m

/-- C9 counterexample: `TIMIDITY_SetVolume` stores its argument without
clamping, so a single SetVolume call with level `MIX_MAX_VOLUME + 1` on a
freshly constructed session leaves the volume field above `MIX_MAX_VOLUME`,
refuting the claim that the field stays in `[0, MAX_VOLUME]` under every
SetVolume/GetVolume sequence. -/
theorem timidity_setVolume_unclamped_counterexample :
    (TIMIDITY_SetVolume ⟨0, true, none, false, 0, MIX_MAX_VOLUME⟩
        (MIX_MAX_VOLUME + 1)).1.volume = MIX_MAX_VOLUME + 1 ∧
    ¬ ((TIMIDITY_SetVolume ⟨0, true, none, false, 0, MIX_MAX_VOLUME⟩
        (MIX_MAX_VOLUME + 1)).1.volume ≤ MIX_MAX_VOLUME) := by
  constructor
  · rfl
  · decide

/-- C9 amended: a freshly constructed session's volume is `MIX_MAX_VOLUME`
(inside `[0, MAX_VOLUME]`), and the volume field stays within
`[0, MAX_VOLUME]` across every sequence of SetVolume/GetVolume operations
whose SetVolume levels all lie in `[0, MAX_VOLUME]` (GetVolume is a pure read
and cannot change the field). -/
theorem timidity_volume_range_of_clamped_inputs :
    (∀ (env : CreateEnv) (music_spec : SDL_AudioSpec) (closeio : Bool)
        (m : TIMIDITY_Music),
      ( TIMIDITY_CreateFromIO env music_spec closeio).result = some m →
      m.volume = MIX_MAX_VOLUME ∧ 0 ≤ m.volume ∧ m.volume ≤ MIX_MAX_VOLUME) ∧
    (∀ (m : TIMIDITY_Music) (ops : List Int),
      0 ≤ m.volume → m.volume ≤ MIX_MAX_VOLUME →
      (∀ v ∈ ops, 0 ≤ v ∧ v ≤ MIX_MAX_VOLUME) →
      0 ≤ (setVolumeFold m ops).volume ∧
        (setVolumeFold m ops).volume ≤ MIX_MAX_VOLUME) ∧
    (∀ m : TIMIDITY_Music, TIMIDITY_GetVolume m = m.volume) := by
  refine ⟨?_, ?_, fun _ => rfl⟩
  · intro env music_spec closeio m h
    unfold TIMIDITY_CreateFromIO at h
    split at h
    · simp at h
    · split at h
      · simp at h
      · split at h
        · split at h
          · simp at h
          · split at h
            · simp at h
            · simp only [Option.some.injEq] at h
              subst h
              exact ⟨rfl, show (0 : Int) ≤ MIX_MAX_VOLUME by decide,
                show MIX_MAX_VOLUME ≤ MIX_MAX_VOLUME by decide⟩
        · simp only [Option.some.injEq] at h
          subst h
          exact ⟨rfl, show (0 : Int) ≤ MIX_MAX_VOLUME by decide,
            show MIX_MAX_VOLUME ≤ MIX_MAX_VOLUME by decide⟩
  · intro m ops
    induction ops generalizing m with
    | nil => intro h0 h1 _; exact ⟨h0, h1⟩
    | cons v rest ih =>
        intro _ _ hops
        have hv := hops v (List.mem_cons_self v rest)
        exact ih ({ m with volume := v }) hv.1 hv.2
          (fun w hw => hops w (List.mem_cons_of_mem v hw))

/-- Closed witness for C9 amended: starting from the constructed volume 128,
the SetVolume sequence [0, 100, 128] keeps the volume within range. -/
theorem timidity_volume_range_of_clamped_inputs_witness :
    0 ≤ (setVolumeFold ⟨0, true, none, false, 0, 128⟩ [0, 100, 128]).volume ∧
    (setVolumeFold ⟨0, true, none, false, 0, 128⟩ [0, 100, 128]).volume ≤
      MIX_MAX_VOLUME :=
  timidity_volume_range_of_clamped_inputs.2.1
    ⟨0, true, none, false, 0, 128⟩ [0, 100, 128]
    (by decide) (by decide) (by decide)

/-- Compile-time platform choice: which `TIMIDITY_CFG*` macros are defined. -/
inductive Platform
  | win32
  | unix
deriving DecidableEq, Repr

/-- The platform-default config paths tried by `TIMIDITY_Open`, in source
order; `none` stands for the final `Timidity_Init(NULL)` built-in default. -/
def cfgCandidates : Platform → List (Option String)
  | Platform.win32 => [some "C:\\TIMIDITY\\TIMIDITY.CFG"]
  | Platform.unix => [some "/etc/timidity.cfg", some "/etc/timidity/freepats.cfg"]

/-- Oracle for `TIMIDITY_Open`: the `TIMIDITY_CFG` environment variable, the
`Mix_GetTimidityCfg()` user override, and the result of `Timidity_Init` on
each config argument (`none` = NULL). -/
structure OpenEnv where
  timidityCfgEnv : Option String
  mixTimidityCfg : Option String
  initRc : Option String → Int

/-- The explicit override used at lines 62-66: the environment variable if
set, else the user-supplied config. -/
def cfgOverride (env : OpenEnv) : Option String :=
  match env.timidityCfgEnv with
  | some c => some c
  | none => env.mixTimidityCfg

/-- One `if (rc < 0) rc = Timidity_Init(c);` step of the fallback chain,
threading the result and the trace of attempted configs. -/
def openStep (f : Option String → Int) (st : Int × List (Option String))
    (c : Option String) : Int × List (Option String) :=
  if st.1 < 0 then (f c, st.2 ++ [c]) else st

/-- `TIMIDITY_Open`: with an env-var or user override present, call
`Timidity_Init` on it alone and return its result; otherwise run the
`if (rc < 0)` chain over the platform candidates and the NULL default,
starting from `rc = -1`. -/
def TIMIDITY_Open (plat : Platform) (env : OpenEnv) :
    Int × List (Option String) :=
  match cfgOverride env with
  | some c => (env.initRc (some c), [some c])
  | none => (cfgCandidates plat ++ [none]).foldl (openStep env.initRc) (-1, [])

/-- Once a candidate succeeded, the remaining chain steps change nothing. -/
lemma foldl_openStep_done (f : Option String → Int) :
    ∀ (l : List (Option String)) (rc : Int) (t : List (Option String)),
      0 ≤ rc → l.foldl (openStep f) (rc, t) = (rc, t)
  | [], _, _, _ => rfl
  | c :: rest, rc, t, h => by
      rw [List.foldl_cons, openStep, if_neg (not_lt.mpr h)]
      exact foldl_openStep_done f rest rc t h

/-- The fallback chain starting from a negative status either stops at the
first succeeding candidate, having tried exactly the candidates before it, or
tries every candidate, all failing, and ends negative. -/
lemma foldl_openStep_spec (f : Option String → Int) :
    ∀ (l : List (Option String)) (rc : Int) (t : List (Option String)),
      rc < 0 →
      (∃ pre c post, l = pre ++ c :: post ∧ (∀ d ∈ pre, f d < 0) ∧
        0 ≤ f c ∧ l.foldl (openStep f) (rc, t) = (f c, (t ++ pre) ++ [c])) ∨
      ((∀ c ∈ l, f c < 0) ∧ ∃ rcf, rcf < 0 ∧
        l.foldl (openStep f) (rc, t) = (rcf, t ++ l))
  | [], rc, t, h => Or.inr ⟨by simp, rc, h, by simp⟩
  | c :: rest, rc, t, h => by
      rw [List.foldl_cons, openStep, if_pos h]
      by_cases hfc : f c < 0
      · rcases foldl_openStep_spec f rest (f c) (t ++ [c]) hfc with
          ⟨pre, d, post, heq, hpre, hd, hout⟩ | ⟨hall, rcf, hrcf, hout⟩
        · left
          refine ⟨c :: pre, d, post, by simp [heq], ?_, hd, ?_⟩
          · intro x hx
            rcases List.mem_cons.mp hx with rfl | hx
            · exact hfc
            · exact hpre x hx
          · rw [hout]
            simp
        · right
          refine ⟨?_, rcf, hrcf, ?_⟩
          · intro x hx
            rcases List.mem_cons.mp hx with rfl | hx
            · exact hfc
            · exact hall x hx
          · rw [hout]
            simp
      · left
        have h0 : 0 ≤ f c := not_lt.mp hfc
        refine ⟨[], c, rest, by simp, by simp, h0, ?_⟩
        rw [foldl_openStep_done f rest (f c) (t ++ [c]) h0]
        simp

/-- What "tried in order, succeeding on the first candidate that initializes"
means for an output (status, trace) pair over an ordered candidate list. -/
def FirstSuccessSpec (f : Option String → Int) (l : List (Option String))
    (out : Int × List (Option String)) : Prop :=
  (∃ pre c post, l = pre ++ c :: post ∧ (∀ d ∈ pre, f d < 0) ∧ 0 ≤ f c ∧
    out = (f c, pre ++ [c])) ∨
  ((∀ c ∈ l, f c < 0) ∧ out.2 = l ∧ out.1 < 0)

/-- C7: when an env-var or user config override is present, `TIMIDITY_Open`
calls `Timidity_Init` on it exclusively and returns that result with no
fallback; otherwise the platform candidates and then the built-in NULL default
are tried in order and Open succeeds on the first candidate that initializes
the backend (all earlier candidates having failed), returning a negative
status only if every candidate fails. -/
theorem timidity_open_config_chain (plat : Platform) (env : OpenEnv) :
    (∀ c, cfgOverride env = some c →
      TIMIDITY_Open plat env = (env.initRc (some c), [some c])) ∧
    (cfgOverride env = none →
      FirstSuccessSpec env.initRc (cfgCandidates plat ++ [none])
        (TIMIDITY_Open plat env)) := by
  constructor
  · intro c hc
    unfold TIMIDITY_Open
    rw [hc]
  · intro hc
    unfold TIMIDITY_Open
    rw [hc]
    rcases foldl_openStep_spec env.initRc (cfgCandidates plat ++ [none])
        (-1) [] (by decide) with
      ⟨pre, c, post, heq, hpre, hc0, hout⟩ | ⟨hall, rcf, hrcf, hout⟩
    · left
      exact ⟨pre, c, post, heq, hpre, hc0, by simpa using hout⟩
    · right
      refine ⟨hall, ?_, ?_⟩
      · rw [hout]
        rfl
      · rw [hout]
        exact hrcf

/-- Closed witness for C7: with the env-var override set, Open calls Init on
it alone. -/
theorem timidity_open_config_chain_witness :
    TIMIDITY_Open Platform.unix ⟨some "custom.cfg", none, fun _ => 0⟩ =
      ((fun _ => (0 : Int)) (some "custom.cfg"), [some "custom.cfg"]) :=
  (timidity_open_config_chain Platform.unix
    ⟨some "custom.cfg", none, fun _ => 0⟩).1 "custom.cfg" rfl
